import Mathlib

/-!
Shallow embedding of the Dailymotion upload bot (src/main.py) for
verification of its natural-language specification.  Pure helpers of the
program become Lean functions; the network and the datastore become
explicit environment parameters, and the observable network activity is
collected in an event trace.
-/

/-! ## Python string helpers used by the source -/

/-- Characters stripped by the Python str.strip method (ASCII whitespace). -/
def pyWhitespace (c : Char) : Bool :=
  c = ' ' || c = '\t' || c = '\n' || c = '\x0d' || c = '\x0b' || c = '\x0c'

/-- Model of the Python str.strip method: drop ASCII whitespace at both ends. -/
def pyStrip (s : String) : String :=
  ⟨((s.data.dropWhile pyWhitespace).reverse.dropWhile pyWhitespace).reverse⟩

/-- ASCII lowercasing of one character, as the Python str.lower method does on ASCII input. -/
def asciiLower (c : Char) : Char :=
  if 'A' ≤ c && c ≤ 'Z' then Char.ofNat (c.toNat + 32) else c

/-- Model of the Python str.lower method on ASCII strings. -/
def strLower (s : String) : String :=
  ⟨s.data.map asciiLower⟩

/-- Whether the list p occurs as a contiguous sublist of l. -/
def listInfixB (p l : List Char) : Bool :=
  match l with
  | [] => p.isEmpty
  | _ :: t => p.isPrefixOf l || listInfixB p t

/-- Model of the Python substring test (the in operator on strings). -/
def strContains (s pat : String) : Bool :=
  listInfixB pat.data s.data

/-- Model of the Python startswith method. -/
def strStartsWith (s pre : String) : Bool :=
  pre.data.isPrefixOf s.data

/-- Split a list at the last occurrence of c: returns the part before that
occurrence and the part starting with it, or none when c does not occur. -/
def splitLast (c : Char) : List Char → Option (List Char × List Char)
  | [] => none
  | a :: rest =>
    match splitLast c rest with
    | some (p, s) => some (a :: p, s)
    | none => if a = c then some ([], a :: rest) else none

/-- The part of the list after the last occurrence of c (the whole list when absent). -/
def afterLast (c : Char) (cs : List Char) : List Char :=
  match splitLast c cs with
  | some (_, _ :: rest) => rest
  | _ => cs

/-- Model of the extension component of the Python os.path.splitext: the part
of the basename from its last dot on, provided some earlier character of the
basename is not a dot (so dotfiles have no extension). -/
def pySplitextExt (s : String) : String :=
  let base := afterLast '/' s.data
  match splitLast '.' base with
  | some (pre, ext) => if pre.any (fun a => a ≠ '.') then ⟨ext⟩ else ""
  | none => ""

/-! ## File validation (validate_video_file, src/main.py lines 91-118) -/

/-- Abstract view of the local filesystem entry the validator inspects:
whether the path exists and its size in bytes. -/
structure FileSys where
  present : Bool
  size : Nat

/-- The accepted extensions of validate_video_file. -/
def valid_extensions : List String :=
  [".mp4", ".avi", ".mov", ".mkv", ".wmv", ".flv", ".webm", ".m4v", ".3gp"]

/-- Extension-to-MIME table modelling the Python standard library mimetypes
mapping for the container extensions the bot accepts: every one of them maps
to a video slash subtype (or to nothing at all on minimal installations,
which the validator treats the same way). -/
def mimeTable : List (String × String) :=
  [(".mp4", "video/mp4"), (".avi", "video/x-msvideo"), (".mov", "video/quicktime"),
   (".mkv", "video/x-matroska"), (".wmv", "video/x-ms-wmv"), (".flv", "video/x-flv"),
   (".webm", "video/webm"), (".m4v", "video/x-m4v"), (".3gp", "video/3gpp")]

/-- Model of mimetypes.guess_type restricted to the extensions relevant here. -/
def guess_type (path : String) : Option String :=
  mimeTable.lookup (strLower (pySplitextExt path))

/-- Embedding of validate_video_file: existence, non-emptiness, 4 GiB cap,
extension allow-list, and MIME sanity check, in source order. -/
def validate_video_file (fs : FileSys) (file_path : String) : Bool × String :=
  if fs.present = false then (false, "File does not exist")
  else if fs.size = 0 then (false, "File is empty")
  else if fs.size > 4 * 1024 * 1024 * 1024 then (false, "File too large")
  else
    let file_ext := strLower (pySplitextExt file_path)
    if (valid_extensions.contains file_ext) = false then (false, "Unsupported format")
    else
      match guess_type file_path with
      | some mime_type =>
        if strStartsWith mime_type "video/" = false then (false, "Invalid MIME type")
        else (true, "Valid")
      | none => (true, "Valid")

/-! ## Remote upload client (DailymotionUploader, src/main.py lines 120-416) -/

/-- Python truthiness of an optional string field (None and the empty string are falsy). -/
def truthy : Option String → Bool
  | none => false
  | some s => s ≠ ""

/-- The token-holding state of a DailymotionUploader instance. -/
structure UploaderState where
  access_token : Option String
  refresh_token : Option String
deriving DecidableEq, Repr

/-- A freshly constructed uploader holds no tokens. -/
def mkUploader : UploaderState := ⟨none, none⟩

/-- Outcome of one POST to the token endpoint as the code observes it:
an HTTP response with a status, a flag for whether the body parses as JSON,
and the two token fields the code reads from it; or a timeout; or another
transport-level exception. -/
inductive AuthOutcome where
  | resp (status : Nat) (jsonOk : Bool) (access_token refresh_token : Option String)
  | timeout
  | transportError
deriving DecidableEq, Repr

/-- Observable network-level events of the client, in order. -/
inductive Ev where
  | authCall (attempt : Nat)
  | sleep (seconds : Nat)
  | slotCall (token : String)
  | filePost (upload_url : String)
  | createCall (token : String)
deriving DecidableEq, Repr

/-- One attempt of the authenticate loop: returns whether the attempt
succeeded, the resulting token state, and whether this failure branch
performs the backoff sleep (the 200-with-bad-body branches do not). -/
def authOnce (o : AuthOutcome) (st : UploaderState) : Bool × UploaderState × Bool :=
  match o with
  | .resp status jsonOk tok rtok =>
    if status = 200 then
      if jsonOk then
        let st' : UploaderState := ⟨tok, rtok⟩
        if truthy tok then (true, st', false) else (false, st', false)
      else (false, st, false)
    else (false, st, true)
  | .timeout => (false, st, true)
  | .transportError => (false, st, true)

/-- The retry loop of authenticate, iterating over the remaining zero-based
attempt indices of range max_retries; a failure branch sleeps two to the
attempt before retrying only when the branch asks for it and another attempt
remains (attempt below two, as max_retries is three). -/
def authLoop (env : Nat → AuthOutcome) : List Nat → UploaderState → Bool × UploaderState × List Ev
  | [], st => (false, st, [])
  | attempt :: rest, st =>
    let r := authOnce (env attempt) st
    if r.1 then (true, r.2.1, [Ev.authCall attempt])
    else
      let evs := [Ev.authCall attempt] ++ (if r.2.2 && decide (attempt < 2) then [Ev.sleep (2 ^ attempt)] else [])
      let restR := authLoop env rest r.2.1
      (restR.1, restR.2.1, evs ++ restR.2.2)

/-- Embedding of DailymotionUploader.authenticate: up to three attempts
against the token endpoint, returning success, the final token state and
the network trace. -/
def authenticate (env : Nat → AuthOutcome) (st : UploaderState) : Bool × UploaderState × List Ev :=
  authLoop env [0, 1, 2] st

/-- Outcome of the GET for an upload slot: a response with status and the
upload_url field the code reads, or an exception. -/
inductive SlotOutcome where
  | resp (status : Nat) (upload_url : Option String)
  | exc
deriving DecidableEq, Repr

/-- Outcome of the file POST to the upload slot: status and the url field, or an exception. -/
inductive PostOutcome where
  | resp (status : Nat) (url : Option String)
  | exc
deriving DecidableEq, Repr

/-- Outcome of the video-creation POST: status and the id field, or an exception. -/
inductive CreateOutcome where
  | resp (status : Nat) (id : Option String)
  | exc
deriving DecidableEq, Repr

/-- The remote side as the client observes it: one token-endpoint outcome
per authentication attempt, and for each bearer token the slot response it
draws, plus the file-POST and creation outcomes. -/
structure NetEnv where
  auth : Nat → AuthOutcome
  slot : String → SlotOutcome
  post : PostOutcome
  create : String → CreateOutcome

/-- Embedding of DailymotionUploader.get_upload_url: with no truthy access
token it returns none without any request; otherwise one GET, from which
only a 200 with a truthy upload_url field yields a URL — a 401 (or any other
status, or an exception) yields none with no re-authentication and no retry. -/
def get_upload_url (env : NetEnv) (st : UploaderState) : Option String × List Ev :=
  if truthy st.access_token = false then (none, [])
  else
    let t := st.access_token.getD ""
    match env.slot t with
    | .resp status upload_url =>
      if status = 200 then
        (if truthy upload_url then upload_url else none, [Ev.slotCall t])
      else (none, [Ev.slotCall t])
    | .exc => (none, [Ev.slotCall t])

/-- Embedding of DailymotionUploader.upload_file_to_url: one multipart POST;
only a 200 with a truthy url field yields the remote file reference. -/
def upload_file_to_url (env : NetEnv) (upload_url : String) : Option String × List Ev :=
  match env.post with
  | .resp status url =>
    if status = 200 then
      (if truthy url then url else none, [Ev.filePost upload_url])
    else (none, [Ev.filePost upload_url])
  | .exc => (none, [Ev.filePost upload_url])

/-- Embedding of DailymotionUploader.create_video: with no truthy token it
returns none without a request; otherwise one POST, and a 200 with a truthy
id field yields the public video URL derived from that id. -/
def create_video (env : NetEnv) (st : UploaderState) : Option String × List Ev :=
  if truthy st.access_token = false then (none, [])
  else
    let t := st.access_token.getD ""
    match env.create t with
    | .resp status id =>
      if status = 200 then
        (if truthy id then some ("https://www.dailymotion.com/video/" ++ id.getD "") else none,
         [Ev.createCall t])
      else (none, [Ev.createCall t])
    | .exc => (none, [Ev.createCall t])

/-- Embedding of DailymotionUploader.upload_video: validate the file (no
network on failure), authenticate when no token is cached, then slot
request, file POST and video creation in sequence, returning none as soon
as a stage fails, together with the accumulated network trace. -/
def upload_video (env : NetEnv) (fs : FileSys) (file_path : String) (st : UploaderState) :
    Option String × List Ev :=
  if (validate_video_file fs file_path).1 = false then (none, [])
  else
    let a := if truthy st.access_token then (true, st, ([] : List Ev))
             else authenticate env.auth st
    if a.1 = false then (none, a.2.2)
    else
      let st1 := a.2.1
      let s := get_upload_url env st1
      match s.1 with
      | none => (none, a.2.2 ++ s.2)
      | some upload_url =>
        let u := upload_file_to_url env upload_url
        match u.1 with
        | none => (none, a.2.2 ++ s.2 ++ u.2)
        | some _ =>
          let c := create_video env st1
          (c.1, a.2.2 ++ s.2 ++ u.2 ++ c.2)

/-! ## Add-channel wizard (handle_text_messages, src/main.py lines 834-997) -/

/-- The step tag stored in a user conversation state. -/
inductive WStep where
  | channel_name
  | api_key
  | api_secret
  | username
  | password
  | waiting_video
  | select_channel
deriving DecidableEq, Repr

/-- A user conversation-state record: the current step and the wizard data
accumulated so far. -/
structure WState where
  step : WStep
  channel_name : Option String
  api_key : Option String
  api_secret : Option String
  username : Option String
deriving DecidableEq, Repr

/-- The reply the wizard text handler sends for one incoming message. -/
inductive WReply where
  | errChannelName
  | promptApiKey
  | errApiKey
  | promptApiSecret
  | errApiSecret
  | promptUsername
  | errUsername
  | promptPassword
  | errPassword
  | passwordAccepted
  | noReply
deriving DecidableEq, Repr

/-- Embedding of the per-step validation and advancement of
handle_text_messages for the first four wizard steps and the emptiness
check of the fifth: on invalid input the state is returned unchanged with
the step-specific error reply; on valid input the datum is recorded and the
step advances (an accepted password hands over to the completion stage,
modelled separately). -/
def handle_text_step (st : WState) (text : String) : WState × WReply :=
  match st.step with
  | .channel_name =>
    let channel_name := pyStrip text
    if channel_name.length < 1 || channel_name.length > 50 then (st, .errChannelName)
    else ({ st with step := .api_key, channel_name := some channel_name }, .promptApiKey)
  | .api_key =>
    let api_key := pyStrip text
    if api_key.length < 10 then (st, .errApiKey)
    else ({ st with step := .api_secret, api_key := some api_key }, .promptApiSecret)
  | .api_secret =>
    let api_secret := pyStrip text
    if api_secret.length < 10 then (st, .errApiSecret)
    else ({ st with step := .username, api_secret := some api_secret }, .promptUsername)
  | .username =>
    let username := pyStrip text
    if username.length < 1 then (st, .errUsername)
    else ({ st with step := .password, username := some username }, .promptPassword)
  | .password =>
    let password := pyStrip text
    if password.length < 1 then (st, .errPassword)
    else (st, .passwordAccepted)
  | _ => (st, .noReply)

/-! ## Channel store (init_db schema and the SQL statements of src/main.py) -/

/-- One row of the channels table created by init_db. -/
structure ChannelRow where
  id : Nat
  user_id : Int
  channel_name : String
  api_key : String
  api_secret : String
  username : String
  password : String
  access_token : Option String
  created_at : Nat
deriving DecidableEq, Repr

/-- The channels table with its serial-id counter. -/
structure ChannelTable where
  rows : List ChannelRow
  next_id : Nat
deriving Repr

/-- Failure modes of the insert the handler distinguishes: the
IntegrityError raised for a violated UNIQUE constraint, and any other
database error. -/
inductive InsertErr where
  | integrityError
  | otherError
deriving DecidableEq, Repr

/-- Whether the table already holds a row for this user and channel name. -/
def hasPair (db : ChannelTable) (uid : Int) (cname : String) : Bool :=
  db.rows.any (fun r => r.user_id = uid && r.channel_name = cname)

/-- Modelled from the spec: PostgreSQL executes the INSERT of
handle_text_messages under the UNIQUE constraint on user_id and
channel_name declared in init_db — a duplicate pair raises IntegrityError
and leaves the table unchanged, otherwise the row is appended with a fresh
serial id and the insertion timestamp. -/
def insertChannel (db : ChannelTable) (uid : Int) (cname api_key api_secret username password : String)
    (access_token : Option String) (t : Nat) : Except InsertErr ChannelTable :=
  if hasPair db uid cname then .error .integrityError
  else .ok { rows := db.rows ++ [⟨db.next_id, uid, cname, api_key, api_secret, username, password, access_token, t⟩],
             next_id := db.next_id + 1 }

/-- Events the password-completion stage performs, in order. -/
inductive WizEv where
  | authenticateCall
  | insertAttempt
deriving DecidableEq, Repr

/-- Environment of the password-completion stage: the token-endpoint
behaviour seen by the live authenticate call, whether a database connection
could be obtained, and whether the insert, when reached, raises a
non-duplicate error. -/
structure WizardEnv where
  auth : Nat → AuthOutcome
  dbConn : Bool
  insertFault : Bool

/-- Reply of the password-completion stage. -/
inductive WizReply where
  | authFailed
  | channelAdded
  | channelAlreadyExists
  | databaseError
  | dbConnError
deriving DecidableEq, Repr

/-- Result of the password-completion stage: the reply shown, whether the
conversation state was deleted, and the resulting table. -/
structure WizResult where
  reply : WizReply
  stateCleared : Bool
  db : ChannelTable

/-- Embedding of the completion stage of wizard step five in
handle_text_messages: a live authenticate call on the collected
credentials; on failure the state is deleted and nothing touches the
database; on success the row is inserted — success clears the state, an
IntegrityError or any other database failure reports its own message and
leaves the state in place. -/
def passwordStep (env : WizardEnv) (uid : Int) (cname api_key api_secret username password : String)
    (db : ChannelTable) (t : Nat) : WizResult × List WizEv :=
  let a := authenticate env.auth mkUploader
  if a.1 = false then ({ reply := .authFailed, stateCleared := true, db := db }, [.authenticateCall])
  else if env.dbConn = false then
    ({ reply := .dbConnError, stateCleared := false, db := db }, [.authenticateCall])
  else if env.insertFault then
    ({ reply := .databaseError, stateCleared := false, db := db }, [.authenticateCall, .insertAttempt])
  else
    match insertChannel db uid cname api_key api_secret username password a.2.1.access_token t with
    | .ok db' => ({ reply := .channelAdded, stateCleared := true, db := db' }, [.authenticateCall, .insertAttempt])
    | .error .integrityError =>
      ({ reply := .channelAlreadyExists, stateCleared := false, db := db }, [.authenticateCall, .insertAttempt])
    | .error .otherError =>
      ({ reply := .databaseError, stateCleared := false, db := db }, [.authenticateCall, .insertAttempt])

/-! ## Channel listing (list_channels_command, src/main.py lines 687-733) -/

/-- Descending creation-time order used by the listing query. -/
def createdDescRel (a b : ChannelRow) : Prop := b.created_at ≤ a.created_at

instance : DecidableRel createdDescRel := fun a b => Nat.decLe b.created_at a.created_at

instance : IsTotal ChannelRow createdDescRel :=
  ⟨fun a b => Nat.le_total b.created_at a.created_at⟩

instance : IsTrans ChannelRow createdDescRel :=
  ⟨fun _ _ _ h1 h2 => Nat.le_trans h2 h1⟩

/-- Modelled from the spec: PostgreSQL evaluates the SELECT of
list_channels_command — rows of the channels table restricted to the given
user_id, ordered by created_at descending. -/
def list_channels (db : ChannelTable) (uid : Int) : List ChannelRow :=
  List.insertionSort createdDescRel (db.rows.filter (fun r => decide (r.user_id = uid)))

/-! ## Upload orchestration (handle_upload_callback, src/main.py lines 1130-1351) -/

/-- How the Telegram media download ends: it returns, or raises
CancelledError, or raises another exception. -/
inductive DownloadEvent where
  | completes
  | raisesCancelled
  | raisesExc
deriving DecidableEq, Repr

/-- How the Dailymotion upload phase (everything from the post-download
status edit through upload_video) ends: with the optional video URL that
upload_video returned, or raising CancelledError, or raising another
exception. -/
inductive UploadPhase where
  | result (r : Option String)
  | raisesCancelled
  | raisesExc
deriving DecidableEq, Repr

/-- Environment of one run of handle_upload_callback. -/
structure OrchEnv where
  dbConn : Bool
  channelFound : Bool
  statePresent : Bool
  download : DownloadEvent
  downloadedPresent : Bool
  downloadedSize : Nat
  upload : UploadPhase

/-- The exit path a run of handle_upload_callback takes. -/
inductive OrchOutcome where
  | dbConnError
  | channelNotFound
  | criticalError
  | downloadFailed
  | cancelled
  | errorHandled
  | uploadSucceeded
  | uploadFailed
deriving DecidableEq, Repr

/-- Observable effects of one run of handle_upload_callback: which exit
path was taken, whether the temporary file was created, whether it was
deleted, and whether the user conversation-state entry was removed. -/
structure OrchResult where
  outcome : OrchOutcome
  tempCreated : Bool
  tempDeleted : Bool
  stateCleared : Bool
deriving DecidableEq, Repr

/-- Embedding of handle_upload_callback: connection and channel lookups
precede the state read (a missing state raises and lands in the outer
handler); the temporary file is then created; a download that raises is
caught, the file unlinked and the state cleared; a download that completes
but leaves no non-empty file returns early — without unlinking and without
reaching the state-clearing epilogue; otherwise the upload phase runs, the
file is unlinked, the outcome is reported and the epilogue clears the state. -/
def handle_upload_callback (env : OrchEnv) : OrchResult :=
  if env.dbConn = false then ⟨.dbConnError, false, false, false⟩
  else if env.channelFound = false then ⟨.channelNotFound, false, false, false⟩
  else if env.statePresent = false then ⟨.criticalError, false, false, false⟩
  else
    match env.download with
    | .raisesCancelled => ⟨.cancelled, true, true, true⟩
    | .raisesExc => ⟨.errorHandled, true, true, true⟩
    | .completes =>
      if env.downloadedPresent = false || env.downloadedSize = 0 then
        ⟨.downloadFailed, true, false, false⟩
      else
        match env.upload with
        | .raisesCancelled => ⟨.cancelled, true, true, true⟩
        | .raisesExc => ⟨.errorHandled, true, true, true⟩
        | .result (some _) => ⟨.uploadSucceeded, true, true, true⟩
        | .result none => ⟨.uploadFailed, true, true, true⟩

/-! ## Incoming file handler (handle_video_upload, src/main.py lines 999-1105) -/

/-- The fields of a Telegram document message the handler reads. -/
structure DocMsg where
  file_name : Option String
  mime_type : Option String
  file_size : Nat
deriving Repr

/-- Python x or d on optional strings: the default replaces None and the empty string. -/
def pyOrStr (v : Option String) (d : String) : String :=
  match v with
  | some s => if s = "" then d else s
  | none => d

/-- The extension allow-list of handle_video_upload (longer than the one of
validate_video_file). -/
def video_extensions : List String :=
  [".mp4", ".avi", ".mov", ".mkv", ".wmv", ".flv", ".webm", ".m4v", ".3gp",
   ".m2v", ".mpg", ".mpeg"]

/-- The way handle_video_upload disposes of a document message. -/
inductive DocOutcome where
  | ignored
  | tooLarge
  | invalidType
  | dbConnError
  | noChannels
  | selectChannel
deriving DecidableEq, Repr

/-- Embedding of handle_video_upload for a document message: ignored unless
the sender is in the waiting-video step; then the 4 GiB size check; then the
type check — the filename extension must be on the allow-list or the
lowered MIME type must contain video/ or application/octet-stream; then the
channel lookup decides between aborting and advancing to channel selection. -/
def handle_video_doc (state : Option WStep) (doc : DocMsg) (defaultName : String)
    (dbConn : Bool) (channels : List ChannelRow) : DocOutcome :=
  match state with
  | some .waiting_video =>
    let file_name := pyOrStr doc.file_name defaultName
    let mime_type := doc.mime_type.getD ""
    if doc.file_size > 4 * 1024 * 1024 * 1024 then .tooLarge
    else
      let file_ext := pySplitextExt (strLower file_name)
      if (video_extensions.contains file_ext) = false
          && (strContains (strLower mime_type) "video/"
              || strContains (strLower mime_type) "application/octet-stream") = false then
        .invalidType
      else if dbConn = false then .dbConnError
      else if channels.isEmpty then .noChannels
      else .selectChannel
  | _ => .ignored

/-! ## Trace counting helpers -/

/-- Number of token-endpoint calls in a trace. -/
def authCallCount (tr : List Ev) : Nat :=
  tr.countP (fun e => match e with | .authCall _ => true | _ => false)

/-- Number of backoff sleeps in a trace. -/
def sleepCount (tr : List Ev) : Nat :=
  tr.countP (fun e => match e with | .sleep _ => true | _ => false)

/-- Number of upload-slot requests in a trace. -/
def slotCallCount (tr : List Ev) : Nat :=
  tr.countP (fun e => match e with | .slotCall _ => true | _ => false)

/-- Number of rows of the table carrying the given user and channel name. -/
def pairCount (db : ChannelTable) (uid : Int) (cname : String) : Nat :=
  (db.rows.filter (fun r => r.user_id = uid && r.channel_name = cname)).length

/-! ## C6 — file validation -/

/-- C6: validate_video_file rejects a missing file, an empty file and an
oversized file, accepts exactly the 4 GiB boundary and rejects one byte
above it, rejects an unsupported extension, and any validation failure
makes upload_video return none with no network call at all. -/
theorem c6_validation :
    (∀ fs p, fs.present = false → (validate_video_file fs p).1 = false)
    ∧ (∀ fs p, fs.size = 0 → (validate_video_file fs p).1 = false)
    ∧ (∀ fs p, 4 * 1024 * 1024 * 1024 < fs.size → (validate_video_file fs p).1 = false)
    ∧ validate_video_file ⟨true, 4 * 1024 * 1024 * 1024⟩ "video.mp4" = (true, "Valid")
    ∧ (validate_video_file ⟨true, 4 * 1024 * 1024 * 1024 + 1⟩ "video.mp4").1 = false
    ∧ (∀ fs p, valid_extensions.contains (strLower (pySplitextExt p)) = false →
        (validate_video_file fs p).1 = false)
    ∧ (∀ env fs p st, (validate_video_file fs p).1 = false →
        upload_video env fs p st = (none, [])) := by
  refine ⟨?_, ?_, ?_, ?_, ?_, ?_, ?_⟩
  · intro fs p h
    unfold validate_video_file
    split_ifs <;> simp_all
  · intro fs p h
    unfold validate_video_file
    split_ifs <;> first | rfl | simp_all
  · intro fs p h
    unfold validate_video_file
    split_ifs <;> first | rfl | omega
  · decide
  · decide
  · intro fs p h
    unfold validate_video_file
    split_ifs <;> first | rfl | simp_all
  · intro env fs p st h
    unfold upload_video
    simp [h]

/-- Witness for C6 at concrete inputs: a missing file is rejected and the
resulting upload makes no network call. -/
theorem c6_validation_witness :
    (validate_video_file ⟨false, 7⟩ "clip.mp4").1 = false
    ∧ upload_video ⟨fun _ => AuthOutcome.timeout, fun _ => SlotOutcome.exc, PostOutcome.exc,
        fun _ => CreateOutcome.exc⟩ ⟨false, 7⟩ "clip.mp4" mkUploader = (none, []) := by
  refine ⟨c6_validation.1 ⟨false, 7⟩ "clip.mp4" rfl, ?_⟩
  exact c6_validation.2.2.2.2.2.2 _ ⟨false, 7⟩ "clip.mp4" mkUploader
    (c6_validation.1 ⟨false, 7⟩ "clip.mp4" rfl)

/-! ## C7 — wizard step validation -/

/-- C7: each wizard step validates before advancing and stays on the same
step with the step-specific error on invalid input — the stripped channel
name is rejected outside lengths one to fifty and accepted inside, the API
key and secret each need at least ten characters, and username and
password must be non-empty. -/
theorem c7_wizard_validation :
    (∀ st text, st.step = WStep.channel_name →
      ((pyStrip text).length < 1 ∨ 50 < (pyStrip text).length) →
      handle_text_step st text = (st, WReply.errChannelName))
    ∧ (∀ st text, st.step = WStep.channel_name →
      1 ≤ (pyStrip text).length → (pyStrip text).length ≤ 50 →
      handle_text_step st text =
        ({ st with step := WStep.api_key, channel_name := some (pyStrip text) }, WReply.promptApiKey))
    ∧ (∀ st text, st.step = WStep.api_key → (pyStrip text).length < 10 →
      handle_text_step st text = (st, WReply.errApiKey))
    ∧ (∀ st text, st.step = WStep.api_key → 10 ≤ (pyStrip text).length →
      handle_text_step st text =
        ({ st with step := WStep.api_secret, api_key := some (pyStrip text) }, WReply.promptApiSecret))
    ∧ (∀ st text, st.step = WStep.api_secret → (pyStrip text).length < 10 →
      handle_text_step st text = (st, WReply.errApiSecret))
    ∧ (∀ st text, st.step = WStep.api_secret → 10 ≤ (pyStrip text).length →
      handle_text_step st text =
        ({ st with step := WStep.username, api_secret := some (pyStrip text) }, WReply.promptUsername))
    ∧ (∀ st text, st.step = WStep.username → (pyStrip text).length = 0 →
      handle_text_step st text = (st, WReply.errUsername))
    ∧ (∀ st text, st.step = WStep.username → 1 ≤ (pyStrip text).length →
      handle_text_step st text =
        ({ st with step := WStep.password, username := some (pyStrip text) }, WReply.promptPassword))
    ∧ (∀ st text, st.step = WStep.password → (pyStrip text).length = 0 →
      handle_text_step st text = (st, WReply.errPassword))
    ∧ (∀ st text, st.step = WStep.password → 1 ≤ (pyStrip text).length →
      handle_text_step st text = (st, WReply.passwordAccepted)) := by
  refine ⟨?_, ?_, ?_, ?_, ?_, ?_, ?_, ?_, ?_, ?_⟩
  · intro st text hstep h
    simp only [handle_text_step, hstep]
    split_ifs with hc <;> first | rfl | (exfalso; revert hc; simp; omega)
  · intro st text hstep h1 h2
    simp only [handle_text_step, hstep]
    split_ifs with hc <;> first | rfl | (exfalso; revert hc; simp; omega)
  · intro st text hstep h
    simp only [handle_text_step, hstep]
    split_ifs with hc <;> first | rfl | (exfalso; revert hc; simp; omega)
  · intro st text hstep h
    simp only [handle_text_step, hstep]
    split_ifs with hc <;> first | rfl | (exfalso; revert hc; simp; omega)
  · intro st text hstep h
    simp only [handle_text_step, hstep]
    split_ifs with hc <;> first | rfl | (exfalso; revert hc; simp; omega)
  · intro st text hstep h
    simp only [handle_text_step, hstep]
    split_ifs with hc <;> first | rfl | (exfalso; revert hc; simp; omega)
  · intro st text hstep h
    simp only [handle_text_step, hstep]
    split_ifs with hc <;> first | rfl | (exfalso; revert hc; simp; omega)
  · intro st text hstep h
    simp only [handle_text_step, hstep]
    split_ifs with hc <;> first | rfl | (exfalso; revert hc; simp; omega)
  · intro st text hstep h
    simp only [handle_text_step, hstep]
    split_ifs with hc <;> first | rfl | (exfalso; revert hc; simp; omega)
  · intro st text hstep h
    simp only [handle_text_step, hstep]
    split_ifs with hc <;> first | rfl | (exfalso; revert hc; simp; omega)

/-! ## C5 — authenticate -/

/-- Whether one token-endpoint outcome makes the attempt succeed: an HTTP
200 whose body parses and carries a truthy access token. -/
def okOutcome : AuthOutcome → Bool
  | .resp status jsonOk tok _ => decide (status = 200) && jsonOk && truthy tok
  | _ => false

/-- The token state after one attempt: a parsed 200 body overwrites both
token fields with whatever the body held; every other outcome leaves them. -/
def nextTokens (o : AuthOutcome) (st : UploaderState) : UploaderState :=
  match o with
  | .resp status jsonOk tok rtok => if decide (status = 200) && jsonOk then ⟨tok, rtok⟩ else st
  | _ => st

/-- Whether a failed attempt takes the backoff-sleeping branch: every
non-200 response, timeout or transport error does; the 200 branches with a
malformed or token-less body do not. -/
def sleepy : AuthOutcome → Bool
  | .resp status _ _ _ => !(decide (status = 200))
  | _ => true

/-- One authenticate attempt projected through the three helper views. -/
theorem authOnce_eq (o : AuthOutcome) (st : UploaderState) :
    authOnce o st = (okOutcome o, nextTokens o st, sleepy o) := by
  rcases o with ⟨status, jsonOk, tok, rtok⟩ | _ | _ <;>
    simp only [authOnce, okOutcome, nextTokens, sleepy] <;>
    split_ifs <;> simp_all

/-- Unfolding of one iteration of the authenticate retry loop. -/
theorem authLoop_cons (env : Nat → AuthOutcome) (attempt : Nat) (rest : List Nat)
    (st : UploaderState) :
    authLoop env (attempt :: rest) st =
      if okOutcome (env attempt) then (true, nextTokens (env attempt) st, [Ev.authCall attempt])
      else
        ((authLoop env rest (nextTokens (env attempt) st)).1,
         (authLoop env rest (nextTokens (env attempt) st)).2.1,
         ([Ev.authCall attempt] ++
           (if sleepy (env attempt) && decide (attempt < 2) then [Ev.sleep (2 ^ attempt)] else [])) ++
         (authLoop env rest (nextTokens (env attempt) st)).2.2) := by
  by_cases h : okOutcome (env attempt) = true <;>
    simp [authLoop, authOnce_eq, h]

/-- The environment answering attempt zero with the first outcome, attempt
one with the second and every later attempt with the third. -/
def envOf3 (o0 o1 o2 : AuthOutcome) : Nat → AuthOutcome :=
  fun i => if i = 0 then o0 else if i = 1 then o1 else o2

/-- C5, counterexample: when every token-endpoint answer is an HTTP 200
with a malformed body, authenticate retries all three attempts and fails,
but — contrary to the claim that any non-success outcome is retried with
exponential backoff — the trace contains no backoff sleep at all. -/
theorem c5_counterexample :
    authenticate (fun _ => AuthOutcome.resp 200 false none none) mkUploader =
      (false, mkUploader, [Ev.authCall 0, Ev.authCall 1, Ev.authCall 2])
    ∧ ¬ 0 < sleepCount
        (authenticate (fun _ => AuthOutcome.resp 200 false none none) mkUploader).2.2 := by
  constructor
  · decide
  · decide

/-- A failed attempt leaves no truthy access token behind when none was
cached before it. -/
theorem nextTokens_not_truthy (o : AuthOutcome) (s : UploaderState)
    (hs : truthy s.access_token = false) (ho : okOutcome o = false) :
    truthy (nextTokens o s).access_token = false := by
  rcases o with ⟨status, jsonOk, tok, rtok⟩ | _ | _
  · by_cases hst : status = 200 <;> by_cases hj : jsonOk = true <;>
      by_cases htk : truthy tok = true <;>
      simp_all [okOutcome, nextTokens]
  · exact hs
  · exact hs

/-- Closed form of authenticate over the three-outcome environment. -/
theorem authenticate_envOf3 (o0 o1 o2 : AuthOutcome) (st : UploaderState) :
    authenticate (envOf3 o0 o1 o2) st =
      if okOutcome o0 then (true, nextTokens o0 st, [Ev.authCall 0])
      else if okOutcome o1 then
        (true, nextTokens o1 (nextTokens o0 st),
         [Ev.authCall 0] ++ (if sleepy o0 then [Ev.sleep 1] else []) ++ [Ev.authCall 1])
      else
        (okOutcome o2, nextTokens o2 (nextTokens o1 (nextTokens o0 st)),
         [Ev.authCall 0] ++ (if sleepy o0 then [Ev.sleep 1] else []) ++
         ([Ev.authCall 1] ++ (if sleepy o1 then [Ev.sleep 2] else []) ++ [Ev.authCall 2])) := by
  have h0 : envOf3 o0 o1 o2 0 = o0 := rfl
  have h1 : envOf3 o0 o1 o2 1 = o1 := rfl
  have h2 : envOf3 o0 o1 o2 2 = o2 := rfl
  show authLoop (envOf3 o0 o1 o2) [0, 1, 2] st = _
  rw [authLoop_cons, h0]
  by_cases hq0 : okOutcome o0 = true
  · simp [hq0]
  · rw [if_neg hq0, if_neg hq0]
    rw [authLoop_cons, h1]
    by_cases hq1 : okOutcome o1 = true
    · rw [if_pos hq1, if_pos hq1]
      simp [List.append_assoc]
    · rw [if_neg hq1, if_neg hq1]
      rw [authLoop_cons, h2]
      by_cases hq2 : okOutcome o2 = true
      · rw [if_pos hq2]
        simp [hq2, authLoop, List.append_assoc]
      · rw [if_neg hq2]
        simp [hq2, authLoop, List.append_assoc]

/-- C5, amended: authenticate succeeds exactly when one of its at most
three attempts receives an HTTP 200 whose body parses and carries a truthy
access token, and it then stores the tokens of that body; a failing
attempt with a non-200 status, timeout or transport error is retried after
an exponential backoff sleep of two to the attempt index, while a failing
200 with a malformed or token-less body is retried immediately with no
backoff sleep; after three failed attempts it returns failure, and a run
that began with no cached token and failed leaves no truthy token cached. -/
theorem c5_amended (o0 o1 o2 : AuthOutcome) (st : UploaderState) :
    ((authenticate (envOf3 o0 o1 o2) st).1 = true ↔
      (okOutcome o0 || okOutcome o1 || okOutcome o2) = true)
    ∧ authCallCount (authenticate (envOf3 o0 o1 o2) st).2.2 ≤ 3
    ∧ (okOutcome o0 = true →
        authenticate (envOf3 o0 o1 o2) st = (true, nextTokens o0 st, [Ev.authCall 0]))
    ∧ (okOutcome o0 = false → okOutcome o1 = true →
        authenticate (envOf3 o0 o1 o2) st =
          (true, nextTokens o1 (nextTokens o0 st),
           [Ev.authCall 0] ++ (if sleepy o0 = true then [Ev.sleep 1] else []) ++ [Ev.authCall 1]))
    ∧ (okOutcome o0 = false → okOutcome o1 = false →
        authenticate (envOf3 o0 o1 o2) st =
          (okOutcome o2, nextTokens o2 (nextTokens o1 (nextTokens o0 st)),
           [Ev.authCall 0] ++ (if sleepy o0 = true then [Ev.sleep 1] else []) ++
           ([Ev.authCall 1] ++ (if sleepy o1 = true then [Ev.sleep 2] else []) ++ [Ev.authCall 2])))
    ∧ (truthy st.access_token = false → (authenticate (envOf3 o0 o1 o2) st).1 = false →
        truthy (authenticate (envOf3 o0 o1 o2) st).2.1.access_token = false) := by
  have hc := authenticate_envOf3 o0 o1 o2 st
  refine ⟨?_, ?_, ?_, ?_, ?_, ?_⟩
  · rw [hc]
    by_cases hq0 : okOutcome o0 = true <;> by_cases hq1 : okOutcome o1 = true <;>
      by_cases hq2 : okOutcome o2 = true <;> simp [hq0, hq1, hq2]
  · rw [hc]
    split_ifs <;> simp [authCallCount, List.countP_cons, List.countP_nil]
  · intro h
    rw [hc, if_pos h]
  · intro h h1
    have h' : ¬ okOutcome o0 = true := by simp [h]
    rw [hc, if_neg h', if_pos h1]
  · intro h h1
    have h' : ¬ okOutcome o0 = true := by simp [h]
    have h1' : ¬ okOutcome o1 = true := by simp [h1]
    rw [hc, if_neg h', if_neg h1']
  · intro hs hf
    by_cases hq0 : okOutcome o0 = true
    · rw [hc, if_pos hq0] at hf
      simp at hf
    · by_cases hq1 : okOutcome o1 = true
      · rw [hc, if_neg hq0, if_pos hq1] at hf
        simp at hf
      · rw [hc, if_neg hq0, if_neg hq1] at hf ⊢
        simp only [] at hf
        exact nextTokens_not_truthy _ _
          (nextTokens_not_truthy _ _
            (nextTokens_not_truthy _ _ hs (by simpa using hq0))
            (by simpa using hq1))
          hf

/-- Witness for C5 at concrete outcomes: a server error, then a timeout,
then a clean 200 — the run backs off one second, then two, and succeeds on
the third attempt, caching the token of the successful body. -/
theorem c5_amended_witness :
    authenticate (envOf3 (AuthOutcome.resp 500 false none none) AuthOutcome.timeout
        (AuthOutcome.resp 200 true (some "tok") none)) mkUploader =
      (true, ⟨some "tok", none⟩,
       [Ev.authCall 0, Ev.sleep 1, Ev.authCall 1, Ev.sleep 2, Ev.authCall 2]) := by
  have h := (c5_amended (AuthOutcome.resp 500 false none none) AuthOutcome.timeout
      (AuthOutcome.resp 200 true (some "tok") none) mkUploader).2.2.2.2.1 (by decide) (by decide)
  simpa using h

/-! ## C1 — HTTP 401 on the upload-slot request -/

/-- C1, counterexample: with valid credentials and a slot endpoint that
answers 401, the full run authenticates once, issues one slot request and
stops — the trace shows no re-authentication after the 401 and no retried
slot request (the claim asks for a second slot call), and upload_video
returns none. -/
theorem c1_counterexample :
    upload_video ⟨fun _ => AuthOutcome.resp 200 true (some "T") none,
        fun _ => SlotOutcome.resp 401 none, PostOutcome.exc, fun _ => CreateOutcome.exc⟩
      ⟨true, 100⟩ "video.mp4" mkUploader = (none, [Ev.authCall 0, Ev.slotCall "T"])
    ∧ ¬ 2 ≤ slotCallCount (upload_video ⟨fun _ => AuthOutcome.resp 200 true (some "T") none,
        fun _ => SlotOutcome.resp 401 none, PostOutcome.exc, fun _ => CreateOutcome.exc⟩
      ⟨true, 100⟩ "video.mp4" mkUploader).2 := by
  constructor
  · decide
  · decide

/-- C1, amended: when the slot endpoint answers 401 to the token in hand,
get_upload_url gives up at once — upload_video on a valid file with a
cached token performs exactly that one slot request, with no
re-authentication, no retry and no further network call, and returns none. -/
theorem c1_amended (env : NetEnv) (fs : FileSys) (p : String) (st : UploaderState)
    (u : Option String)
    (hv : (validate_video_file fs p).1 = true)
    (ht : truthy st.access_token = true)
    (h401 : env.slot (st.access_token.getD "") = SlotOutcome.resp 401 u) :
    upload_video env fs p st = (none, [Ev.slotCall (st.access_token.getD "")]) := by
  simp [upload_video, get_upload_url, hv, ht, h401]

/-- Witness for C1 at a concrete environment: token T in hand, slot
endpoint answering 401. -/
theorem c1_amended_witness :
    upload_video ⟨fun _ => AuthOutcome.timeout, fun _ => SlotOutcome.resp 401 none,
        PostOutcome.exc, fun _ => CreateOutcome.exc⟩ ⟨true, 55⟩ "clip.mkv" ⟨some "T", none⟩ =
      (none, [Ev.slotCall "T"]) := by
  have h := c1_amended ⟨fun _ => AuthOutcome.timeout, fun _ => SlotOutcome.resp 401 none,
      PostOutcome.exc, fun _ => CreateOutcome.exc⟩ ⟨true, 55⟩ "clip.mkv" ⟨some "T", none⟩
      none (by decide) (by decide) rfl
  simpa using h

/-! ## C2 — temporary-file cleanup -/

/-- C2, counterexample: a run whose Telegram download completes but leaves
a zero-byte file on disk takes the early download-failure return — the
temporary file was created and is not deleted on this exit path. -/
theorem c2_counterexample :
    (handle_upload_callback ⟨true, true, true, DownloadEvent.completes, true, 0,
        UploadPhase.result (some "x")⟩).tempCreated = true
    ∧ (handle_upload_callback ⟨true, true, true, DownloadEvent.completes, true, 0,
        UploadPhase.result (some "x")⟩).tempDeleted = false
    ∧ (handle_upload_callback ⟨true, true, true, DownloadEvent.completes, true, 0,
        UploadPhase.result (some "x")⟩).outcome = OrchOutcome.downloadFailed := by
  refine ⟨by decide, by decide, by decide⟩

/-- C2, amended: on every exit path that created the temporary file other
than the download-failure early return — success, upload failure,
cancellation and handled exceptions — the file is deleted. -/
theorem c2_amended (env : OrchEnv) :
    (handle_upload_callback env).tempCreated = true →
    (handle_upload_callback env).outcome ≠ OrchOutcome.downloadFailed →
    (handle_upload_callback env).tempDeleted = true := by
  rcases env with ⟨dc, cf, sp, dl, dp, ds, up⟩
  by_cases hds : ds = 0 <;>
    cases dc <;> cases cf <;> cases sp <;> cases dl <;> cases dp <;>
    rcases up with (_ | _) | _ | _ <;>
    simp_all [handle_upload_callback]

/-- Witness for C2 at a concrete successful run. -/
theorem c2_amended_witness :
    (handle_upload_callback ⟨true, true, true, DownloadEvent.completes, true, 5,
        UploadPhase.result (some "https://www.dailymotion.com/video/x1")⟩).tempDeleted = true :=
  c2_amended _ (by decide) (by decide)

/-! ## C3 — conversation-state cleanup after channel selection -/

/-- C3, counterexample: a run whose download completes with an empty file
takes the early download-failure return, which skips the state-clearing
epilogue — the orchestration ran (the temporary file was created) yet the
conversation-state entry of the user is not removed. -/
theorem c3_counterexample :
    (handle_upload_callback ⟨true, true, true, DownloadEvent.completes, true, 0,
        UploadPhase.result none⟩).tempCreated = true
    ∧ (handle_upload_callback ⟨true, true, true, DownloadEvent.completes, true, 0,
        UploadPhase.result none⟩).stateCleared = false
    ∧ (handle_upload_callback ⟨true, true, true, DownloadEvent.completes, true, 0,
        UploadPhase.result none⟩).outcome = OrchOutcome.downloadFailed := by
  refine ⟨by decide, by decide, by decide⟩

/-- C3, amended: on every run that created the temporary file and did not
take the download-failure early return — success, upload failure,
cancellation and handled exceptions — the conversation-state entry is
removed afterwards. -/
theorem c3_amended (env : OrchEnv) :
    (handle_upload_callback env).tempCreated = true →
    (handle_upload_callback env).outcome ≠ OrchOutcome.downloadFailed →
    (handle_upload_callback env).stateCleared = true := by
  rcases env with ⟨dc, cf, sp, dl, dp, ds, up⟩
  by_cases hds : ds = 0 <;>
    cases dc <;> cases cf <;> cases sp <;> cases dl <;> cases dp <;>
    rcases up with (_ | _) | _ | _ <;>
    simp_all [handle_upload_callback]

/-- Witness for C3 at a concrete cancelled run. -/
theorem c3_amended_witness :
    (handle_upload_callback ⟨true, true, true, DownloadEvent.raisesCancelled, false, 0,
        UploadPhase.result none⟩).stateCleared = true :=
  c3_amended _ (by decide) (by decide)

/-! ## C4 — credential verification before persistence -/

/-- C4, counterexample: with credentials the provider accepts but a channel
name already taken, authentication succeeds yet the insert raises the
duplicate error — no row is written, the duplicate message is shown, and
the conversation state is NOT cleared, contradicting the claim that a
successful authentication always ends with the row persisted and the state
cleared. -/
theorem c4_counterexample :
    (authenticate (fun _ => AuthOutcome.resp 200 true (some "T") none) mkUploader).1 = true
    ∧ (passwordStep ⟨fun _ => AuthOutcome.resp 200 true (some "T") none, true, false⟩ 1
        "Main" "k" "s" "u" "p" ⟨[⟨0, 1, "Main", "k", "s", "u", "p", none, 0⟩], 1⟩ 5).1.stateCleared
        = false
    ∧ (passwordStep ⟨fun _ => AuthOutcome.resp 200 true (some "T") none, true, false⟩ 1
        "Main" "k" "s" "u" "p" ⟨[⟨0, 1, "Main", "k", "s", "u", "p", none, 0⟩], 1⟩ 5).1.db.rows
        = [⟨0, 1, "Main", "k", "s", "u", "p", none, 0⟩]
    ∧ (passwordStep ⟨fun _ => AuthOutcome.resp 200 true (some "T") none, true, false⟩ 1
        "Main" "k" "s" "u" "p" ⟨[⟨0, 1, "Main", "k", "s", "u", "p", none, 0⟩], 1⟩ 5).1.reply
        = WizReply.channelAlreadyExists := by
  refine ⟨by decide, by decide, by decide, by decide⟩

/-- C4, amended: the completion of wizard step five verifies the collected
credentials with a live authenticate call before any insert is attempted;
a failed authentication deletes the conversation state and writes nothing;
a successful authentication followed by a successful insert persists the
row and clears the state, while a duplicate name leaves the table and the
conversation state untouched and reports the duplicate distinctly. -/
theorem c4_amended (env : WizardEnv) (uid : Int)
    (cname api_key api_secret username password : String) (db : ChannelTable) (t : Nat) :
    ((passwordStep env uid cname api_key api_secret username password db t).2 =
        [WizEv.authenticateCall]
      ∨ (passwordStep env uid cname api_key api_secret username password db t).2 =
        [WizEv.authenticateCall, WizEv.insertAttempt])
    ∧ ((authenticate env.auth mkUploader).1 = false →
        (passwordStep env uid cname api_key api_secret username password db t).1.stateCleared = true
        ∧ (passwordStep env uid cname api_key api_secret username password db t).1.db = db
        ∧ (passwordStep env uid cname api_key api_secret username password db t).1.reply =
            WizReply.authFailed
        ∧ (passwordStep env uid cname api_key api_secret username password db t).2 =
            [WizEv.authenticateCall])
    ∧ ((authenticate env.auth mkUploader).1 = true → env.dbConn = true → env.insertFault = false →
        hasPair db uid cname = false →
        (passwordStep env uid cname api_key api_secret username password db t).1.stateCleared = true
        ∧ (passwordStep env uid cname api_key api_secret username password db t).1.reply =
            WizReply.channelAdded
        ∧ hasPair (passwordStep env uid cname api_key api_secret username password db t).1.db
            uid cname = true)
    ∧ ((authenticate env.auth mkUploader).1 = true → env.dbConn = true → env.insertFault = false →
        hasPair db uid cname = true →
        (passwordStep env uid cname api_key api_secret username password db t).1.stateCleared = false
        ∧ (passwordStep env uid cname api_key api_secret username password db t).1.db = db
        ∧ (passwordStep env uid cname api_key api_secret username password db t).1.reply =
            WizReply.channelAlreadyExists) := by
  refine ⟨?_, ?_, ?_, ?_⟩
  · simp only [passwordStep]
    split_ifs
    · left; rfl
    · left; rfl
    · right; rfl
    · split
      · right; rfl
      · right; rfl
      · right; rfl
  · intro ha
    simp [passwordStep, ha]
  · intro ha hdb hif hpair
    have ha' : ¬ (authenticate env.auth mkUploader).1 = false := by simp [ha]
    have hdb' : ¬ env.dbConn = false := by simp [hdb]
    have hins : insertChannel db uid cname api_key api_secret username password
        (authenticate env.auth mkUploader).2.1.access_token t =
        Except.ok ⟨db.rows ++ [⟨db.next_id, uid, cname, api_key, api_secret, username, password,
          (authenticate env.auth mkUploader).2.1.access_token, t⟩], db.next_id + 1⟩ := by
      simp [insertChannel, hpair]
    have hmain : passwordStep env uid cname api_key api_secret username password db t =
        (⟨WizReply.channelAdded, true, ⟨db.rows ++ [⟨db.next_id, uid, cname, api_key, api_secret,
            username, password, (authenticate env.auth mkUploader).2.1.access_token, t⟩],
          db.next_id + 1⟩⟩, [WizEv.authenticateCall, WizEv.insertAttempt]) := by
      simp [passwordStep, ha', hdb', hif, hins]
    rw [hmain]
    refine ⟨rfl, rfl, ?_⟩
    simp [hasPair, List.any_append]
  · intro ha hdb hif hpair
    have ha' : ¬ (authenticate env.auth mkUploader).1 = false := by simp [ha]
    have hdb' : ¬ env.dbConn = false := by simp [hdb]
    have hins : insertChannel db uid cname api_key api_secret username password
        (authenticate env.auth mkUploader).2.1.access_token t =
        Except.error InsertErr.integrityError := by
      simp [insertChannel, hpair]
    have hmain : passwordStep env uid cname api_key api_secret username password db t =
        (⟨WizReply.channelAlreadyExists, false, db⟩,
         [WizEv.authenticateCall, WizEv.insertAttempt]) := by
      simp [passwordStep, ha', hdb', hif, hins]
    rw [hmain]
    exact ⟨rfl, rfl, rfl⟩

/-- Witness for C4: accepted credentials and a fresh name persist the row
and clear the state. -/
theorem c4_amended_witness :
    (passwordStep ⟨fun _ => AuthOutcome.resp 200 true (some "T") none, true, false⟩ 1
        "Main" "keykeykey1" "secsecsec1" "user" "pw" ⟨[], 0⟩ 5).1.stateCleared = true
    ∧ (passwordStep ⟨fun _ => AuthOutcome.resp 200 true (some "T") none, true, false⟩ 1
        "Main" "keykeykey1" "secsecsec1" "user" "pw" ⟨[], 0⟩ 5).1.reply = WizReply.channelAdded
    ∧ hasPair (passwordStep ⟨fun _ => AuthOutcome.resp 200 true (some "T") none, true, false⟩ 1
        "Main" "keykeykey1" "secsecsec1" "user" "pw" ⟨[], 0⟩ 5).1.db 1 "Main" = true :=
  (c4_amended ⟨fun _ => AuthOutcome.resp 200 true (some "T") none, true, false⟩ 1
      "Main" "keykeykey1" "secsecsec1" "user" "pw" ⟨[], 0⟩ 5).2.2.1
    (by decide) rfl rfl (by decide)

/-! ## C7 witness -/

/-- Witness for C7 at the boundary inputs: the empty name and a 51-letter
name are rejected in place, a 1-letter and a 50-letter name advance the
wizard, a short API key is rejected, an empty username is rejected and a
non-empty password is accepted. -/
theorem c7_wizard_validation_witness :
    handle_text_step ⟨WStep.channel_name, none, none, none, none⟩ "" =
      (⟨WStep.channel_name, none, none, none, none⟩, WReply.errChannelName)
    ∧ handle_text_step ⟨WStep.channel_name, none, none, none, none⟩ ⟨List.replicate 51 'a'⟩ =
      (⟨WStep.channel_name, none, none, none, none⟩, WReply.errChannelName)
    ∧ handle_text_step ⟨WStep.channel_name, none, none, none, none⟩ "a" =
      (⟨WStep.api_key, some (pyStrip "a"), none, none, none⟩, WReply.promptApiKey)
    ∧ handle_text_step ⟨WStep.channel_name, none, none, none, none⟩ ⟨List.replicate 50 'a'⟩ =
      (⟨WStep.api_key, some (pyStrip ⟨List.replicate 50 'a'⟩), none, none, none⟩,
       WReply.promptApiKey)
    ∧ handle_text_step ⟨WStep.api_key, some "Main", none, none, none⟩ "short" =
      (⟨WStep.api_key, some "Main", none, none, none⟩, WReply.errApiKey)
    ∧ handle_text_step ⟨WStep.username, some "Main", some "keykeykey1", some "secsecsec1", none⟩ "" =
      (⟨WStep.username, some "Main", some "keykeykey1", some "secsecsec1", none⟩,
       WReply.errUsername)
    ∧ handle_text_step ⟨WStep.password, some "Main", some "keykeykey1", some "secsecsec1",
        some "user"⟩ "pw" =
      (⟨WStep.password, some "Main", some "keykeykey1", some "secsecsec1", some "user"⟩,
       WReply.passwordAccepted) := by
  refine ⟨c7_wizard_validation.1 _ "" rfl (by decide),
    c7_wizard_validation.1 _ _ rfl (by decide),
    c7_wizard_validation.2.1 _ "a" rfl (by decide) (by decide),
    c7_wizard_validation.2.1 _ _ rfl (by decide) (by decide),
    c7_wizard_validation.2.2.1 _ "short" rfl (by decide),
    c7_wizard_validation.2.2.2.2.2.2.1 _ "" rfl (by decide),
    c7_wizard_validation.2.2.2.2.2.2.2.2.2 _ "pw" rfl (by decide)⟩

/-! ## C8 — duplicate channel insertion -/

/-- C8: inserting an already present user and channel-name pair yields the
IntegrityError signal and no new row; a successful insert leaves exactly
one row for the pair and a repeated identical insert then fails with the
duplicate signal; and the reply the wizard shows for a duplicate differs
from the reply for any other storage error. -/
theorem c8_duplicate_insert (uid : Int)
    (cname api_key api_secret username password : String) (tok : Option String) (t : Nat) :
    (∀ db, hasPair db uid cname = true →
      insertChannel db uid cname api_key api_secret username password tok t =
        Except.error InsertErr.integrityError)
    ∧ (∀ db db', insertChannel db uid cname api_key api_secret username password tok t =
        Except.ok db' →
      pairCount db' uid cname = 1
      ∧ insertChannel db' uid cname api_key api_secret username password tok t =
          Except.error InsertErr.integrityError)
    ∧ WizReply.channelAlreadyExists ≠ WizReply.databaseError := by
  refine ⟨?_, ?_, by decide⟩
  · intro db h
    simp [insertChannel, h]
  · intro db db' h
    rcases hb : hasPair db uid cname with _ | _
    · rw [insertChannel, hb] at h
      simp only [Bool.false_eq_true, if_false, Except.ok.injEq] at h
      subst h
      constructor
      · have hnil : db.rows.filter
            (fun r => r.user_id = uid && r.channel_name = cname) = [] := by
          rw [List.filter_eq_nil_iff]
          intro a ha
          intro hcontra
          have : hasPair db uid cname = true := by
            rw [hasPair, List.any_eq_true]
            exact ⟨a, ha, hcontra⟩
          rw [hb] at this
          exact absurd this (by simp)
        simp [pairCount, List.filter_append, hnil]
      · rw [insertChannel]
        have : hasPair ⟨db.rows ++ [⟨db.next_id, uid, cname, api_key, api_secret, username,
            password, tok, t⟩], db.next_id + 1⟩ uid cname = true := by
          simp [hasPair, List.any_append]
        rw [this]
        simp
    · rw [insertChannel, hb] at h
      simp at h

/-- Witness for C8: inserting over an existing (1, Main) pair fails with
the duplicate signal. -/
theorem c8_duplicate_insert_witness :
    insertChannel ⟨[⟨0, 1, "Main", "k", "s", "u", "p", none, 0⟩], 1⟩ 1 "Main"
        "k2" "s2" "u2" "p2" none 9 = Except.error InsertErr.integrityError :=
  (c8_duplicate_insert 1 "Main" "k2" "s2" "u2" "p2" none 9).1 _ (by decide)

/-! ## C9 — channel listing -/

/-- C9: the listing for a user contains exactly the rows of the table
owned by that user — never rows of another user — and is sorted by
creation time descending. -/
theorem c9_list_channels (db : ChannelTable) (uid : Int) :
    (∀ r ∈ list_channels db uid, r.user_id = uid)
    ∧ List.Sorted createdDescRel (list_channels db uid)
    ∧ (∀ r, r ∈ list_channels db uid ↔ r ∈ db.rows ∧ r.user_id = uid) := by
  have hperm : List.Perm (list_channels db uid)
      (db.rows.filter (fun r => decide (r.user_id = uid))) :=
    List.perm_insertionSort _ _
  refine ⟨?_, ?_, ?_⟩
  · intro r hr
    have h2 := (List.Perm.mem_iff hperm).mp hr
    rcases List.mem_filter.mp h2 with ⟨_, hd⟩
    exact of_decide_eq_true hd
  · exact List.sorted_insertionSort _ _
  · intro r
    rw [List.Perm.mem_iff hperm, List.mem_filter]
    simp

/-- Witness for C9: on a three-row table with two owners, the listing for
user one is sorted descending and contains a row exactly when the table
holds it for user one. -/
theorem c9_list_channels_witness :
    List.Sorted createdDescRel (list_channels ⟨[⟨0, 1, "A", "k", "s", "u", "p", none, 5⟩,
      ⟨1, 2, "B", "k", "s", "u", "p", none, 9⟩, ⟨2, 1, "C", "k", "s", "u", "p", none, 7⟩], 3⟩ 1)
    ∧ (⟨2, 1, "C", "k", "s", "u", "p", none, 7⟩ : ChannelRow) ∈
      list_channels ⟨[⟨0, 1, "A", "k", "s", "u", "p", none, 5⟩,
        ⟨1, 2, "B", "k", "s", "u", "p", none, 9⟩,
        ⟨2, 1, "C", "k", "s", "u", "p", none, 7⟩], 3⟩ 1
    ∧ (⟨1, 2, "B", "k", "s", "u", "p", none, 9⟩ : ChannelRow) ∉
      list_channels ⟨[⟨0, 1, "A", "k", "s", "u", "p", none, 5⟩,
        ⟨1, 2, "B", "k", "s", "u", "p", none, 9⟩,
        ⟨2, 1, "C", "k", "s", "u", "p", none, 7⟩], 3⟩ 1 := by
  refine ⟨(c9_list_channels _ 1).2.1, ?_, ?_⟩
  · exact ((c9_list_channels _ 1).2.2 _).mpr (by decide)
  · intro hmem
    have h := (c9_list_channels _ 1).1 _ hmem
    exact absurd h (by decide)

/-! ## C10 — document acceptance into the upload flow -/

/-- C10: a document arriving in the waiting-video step whose filename has
no recognized video extension is still accepted into channel selection
when its lowered MIME type contains video/ or application/octet-stream,
and is rejected as an invalid type when it contains neither. -/
theorem c10_document_mime (doc : DocMsg) (defaultName : String) (channels : List ChannelRow)
    (hsize : doc.file_size ≤ 4 * 1024 * 1024 * 1024)
    (hext : video_extensions.contains
      (pySplitextExt (strLower (pyOrStr doc.file_name defaultName))) = false) :
    ((strContains (strLower (doc.mime_type.getD "")) "video/" = true
      ∨ strContains (strLower (doc.mime_type.getD "")) "application/octet-stream" = true) →
      channels.isEmpty = false →
      handle_video_doc (some WStep.waiting_video) doc defaultName true channels =
        DocOutcome.selectChannel)
    ∧ ((strContains (strLower (doc.mime_type.getD "")) "video/" = false
      ∧ strContains (strLower (doc.mime_type.getD "")) "application/octet-stream" = false) →
      handle_video_doc (some WStep.waiting_video) doc defaultName true channels =
        DocOutcome.invalidType) := by
  have hs : ¬ doc.file_size > 4 * 1024 * 1024 * 1024 := by omega
  constructor
  · intro hmime hch
    rcases hmime with hm | hm <;>
      simp [handle_video_doc, hs, hext, hm, hch]
  · intro hmime
    simp [handle_video_doc, hs, hext, hmime.1, hmime.2]
    intro hmem
    exact absurd hmem (by simpa using hext)

/-- Witness for C10: a document named clip.bin with MIME type
application/octet-stream is accepted into channel selection, and one with
MIME type text/plain is rejected. -/
theorem c10_document_mime_witness :
    handle_video_doc (some WStep.waiting_video)
      ⟨some "clip.bin", some "application/octet-stream", 100⟩ "video_20240101_000000" true
      [⟨0, 1, "A", "k", "s", "u", "p", none, 5⟩] = DocOutcome.selectChannel
    ∧ handle_video_doc (some WStep.waiting_video)
      ⟨some "clip.bin", some "text/plain", 100⟩ "video_20240101_000000" true
      [⟨0, 1, "A", "k", "s", "u", "p", none, 5⟩] = DocOutcome.invalidType := by
  constructor
  · exact (c10_document_mime ⟨some "clip.bin", some "application/octet-stream", 100⟩
      "video_20240101_000000" [⟨0, 1, "A", "k", "s", "u", "p", none, 5⟩]
      (by decide) (by decide)).1 (Or.inr (by decide)) (by decide)
  · exact (c10_document_mime ⟨some "clip.bin", some "text/plain", 100⟩
      "video_20240101_000000" [⟨0, 1, "A", "k", "s", "u", "p", none, 5⟩]
      (by decide) (by decide)).2 ⟨by decide, by decide⟩
